import Mathlib

/-!
Shallow embedding of the HRP (Heart Rate Profile) GATT server sources
(hrp.c, main.c, hrp.h).  Attribute values (C `uint8_t *` plus an `int`
length) are modelled as `Option (List Nat)` (with `none` for the NULL
pointer) together with a `Nat` length.  D-Bus message arguments are an
inductive `DBusValue`; the side effects of a write (the external sink
`callback` and `g_dbus_emit_property_changed`) are collected in a list of
`Effect`s.  Out-parameters that C may leave uninitialized are threaded as
explicit "initial cell contents" arguments.
-/

namespace HRP

/-- bytes are modelled as natural numbers; the claims under study never
depend on the 8-bit bound. -/
abbrev Byte := Nat

/-- interface name constant from hrp.h. -/
def GATT_SERVICE_IFACE : String := "org.bluez.GattService1"

/-- interface name constant from hrp.h. -/
def GATT_CHR_IFACE : String := "org.bluez.GattCharacteristic1"

/-- interface name constant from hrp.h. -/
def GATT_DESCRIPTOR_IFACE : String := "org.bluez.GattDescriptor1"

/-- D-Bus error name used by g_dbus_create_error for invalid arguments. -/
def DBUS_ERROR_INVALID_ARGS : String := "org.freedesktop.DBus.Error.InvalidArgs"

/-- D-Bus error name used by g_dbus_create_error for unsupported operations. -/
def DBUS_ERROR_NOT_SUPPORTED : String := "org.freedesktop.DBus.Error.NotSupported"

/-- errno value EINVAL; parse_value and parse_options return -EINVAL. -/
def EINVAL : Int := 22

/-- util_malloc from main.c: for a nonzero size it either returns a fresh
buffer or aborts the process (it never returns NULL); for size zero it
returns NULL.  Since abort does not return, the returned value for a
nonzero size is always a buffer. -/
def util_malloc (size : Nat) : Option (List Byte) :=
  if size = 0 then none else some (List.replicate size 0)

/-- util_memdup from main.c: returns NULL when src is NULL or size is zero,
otherwise allocates with util_malloc and memcpy-s size bytes from src. -/
def util_memdup (src : Option (List Byte)) (size : Nat) : Option (List Byte) :=
  if src.isNone ∨ size = 0 then none
  else
    match util_malloc size with
    | none => none
    | some _ => some ((src.getD []).take size)

/-- struct characteristic from hrp.h. -/
structure Characteristic where
  service : String
  uuid : String
  path : String
  value : Option (List Byte)
  vlen : Nat
  props : List String
deriving DecidableEq, Repr

/-- struct descriptor from hrp.h; the chr back-pointer is kept as the
owning characteristic's path (the only use of it in the embedded code). -/
structure Descriptor where
  chrPath : String
  uuid : String
  path : String
  value : Option (List Byte)
  vlen : Nat
  props : List String
deriving DecidableEq, Repr

/-- observable side effects of the write paths: the external sink
(callback in main.c, called with the stored value pointer and length) and
g_dbus_emit_property_changed (path, interface, property name). -/
inductive Effect where
  | sinkCall (data : Option (List Byte)) (size : Nat)
  | propertyChanged (path : String) (iface : String) (prop : String)
deriving DecidableEq, Repr

/-- a D-Bus message argument as far as this program inspects it: a fixed
byte array, an array of string-keyed dict entries, or a basic value. -/
inductive DBusValue where
  | byteArray (bytes : List Byte)
  | dictArray (entries : List (String × DBusValue))
  | basicString (s : String)
  | objectPath (p : String)
  | boolean (b : Bool)

/-- the outer D-Bus argument type tag returned by
dbus_message_iter_get_arg_type. -/
inductive DBusArgType where
  | array
  | stringT
  | objectPathT
  | booleanT
deriving DecidableEq, Repr

/-- argument type of a DBusValue; both byte arrays and dict-entry arrays
carry the ARRAY tag. -/
def DBusValue.argType : DBusValue → DBusArgType
  | .byteArray _ => .array
  | .dictArray _ => .array
  | .basicString _ => .stringT
  | .objectPath _ => .objectPathT
  | .boolean _ => .booleanT

/-- parse_value from hrp.c.  It rejects (returning -EINVAL) any argument
whose outer type is not ARRAY; otherwise it recurses and calls
dbus_message_iter_get_fixed_array, which fills the out-parameters only for
a fixed (byte) array and leaves them untouched otherwise, then returns 0.
The callers' cells for the out-parameters are threaded as value0/len0. -/
def parse_value (iter : DBusValue) (value0 : Option (List Byte)) (len0 : Nat) :
    Int × Option (List Byte) × Nat :=
  if iter.argType ≠ DBusArgType.array then (-EINVAL, value0, len0)
  else
    match iter with
    | .byteArray bs => (0, some bs, bs.length)
    | _ => (0, value0, len0)

/-- loop body of parse_options from hrp.c over the dict entries: a
"device" key (compared case-insensitively) must hold an object path, which
is stored into the device out-parameter; other keys are skipped. -/
def parse_options_loop : List (String × DBusValue) → Option String → Int × Option String
  | [], device => (0, device)
  | (key, v) :: rest, device =>
    if key.toLower = "device" then
      match v with
      | .objectPath p => parse_options_loop rest (some p)
      | _ => (-EINVAL, device)
    else parse_options_loop rest device

/-- parse_options from hrp.c: rejects a non-ARRAY argument with -EINVAL;
for an array it recurses and runs the dict-entry loop, which never
executes when the elements are not dict entries (e.g. a byte array), so
those arrays parse successfully with the device cell unchanged. -/
def parse_options (iter : DBusValue) (device0 : Option String) : Int × Option String :=
  if iter.argType ≠ DBusArgType.array then (-EINVAL, device0)
  else
    match iter with
    | .dictArray entries => parse_options_loop entries device0
    | _ => (0, device0)

/-- chr_write from hrp.c: frees the old buffer, stores util_memdup of the
incoming bytes and the incoming length, then invokes the external sink
with the stored pointer and length and emits PropertiesChanged for the
characteristic's path on the characteristic interface. -/
def chr_write (chr : Characteristic) (value : Option (List Byte)) (len : Nat) :
    Characteristic × List Effect :=
  let newValue := util_memdup value len
  ({ chr with value := newValue, vlen := len },
   [Effect.sinkCall newValue len,
    Effect.propertyChanged chr.path GATT_CHR_IFACE "Value"])

/-- desc_write from hrp.c: same shape as chr_write but for a descriptor,
emitting on the descriptor interface. -/
def desc_write (desc : Descriptor) (value : Option (List Byte)) (len : Nat) :
    Descriptor × List Effect :=
  let newValue := util_memdup value len
  ({ desc with value := newValue, vlen := len },
   [Effect.sinkCall newValue len,
    Effect.propertyChanged desc.path GATT_DESCRIPTOR_IFACE "Value"])

/-- chr_read from hrp.c: appends the stored buffer (vlen bytes starting at
the value pointer) as a byte array; with a NULL pointer the program only
ever has vlen = 0 and the appended array is empty. -/
def chr_read (chr : Characteristic) : List Byte :=
  (chr.value.getD []).take chr.vlen

/-- desc_read from hrp.c: appends the stored buffer only when both vlen is
nonzero and the value pointer is non-NULL; otherwise the array is empty. -/
def desc_read (desc : Descriptor) : List Byte :=
  if desc.vlen ≠ 0 ∧ desc.value.isSome then (desc.value.getD []).take desc.vlen
  else []

/-- reply of a D-Bus method handler: a method-return message or an error
created by g_dbus_create_error with the given error name. -/
inductive Reply where
  | methodReturn
  | errorReply (name : String)
deriving DecidableEq, Repr

/-- outcome of a property Set handler: g_dbus_pending_property_success or
g_dbus_pending_property_error with the given error name. -/
inductive PropSetResult where
  | successResult
  | errorResult (name : String)
deriving DecidableEq, Repr

/-- chr_set_value from hrp.c.  NOTE the source condition is
`if (!parse_value(iter, &value, &len))`: the zero (success) return of
parse_value takes the error branch, and a nonzero (failure) return falls
through to chr_write with the local cells, which parse_value never filled
(they are threaded here as garbageValue/garbageLen). -/
def chr_set_value (chr : Characteristic) (iter : DBusValue)
    (garbageValue : Option (List Byte)) (garbageLen : Nat) :
    PropSetResult × Characteristic × List Effect :=
  let r := parse_value iter garbageValue garbageLen
  if r.1 = 0 then
    (PropSetResult.errorResult "ERROR_INTERFACE.InvalidArguments", chr, [])
  else
    let w := chr_write chr r.2.1 r.2.2
    (PropSetResult.successResult, w.1, w.2)

/-- desc_set_value from hrp.c: the condition is
`if (parse_value(iter, &value, &len))`, so a nonzero (failure) return
takes the error branch and a zero return falls through to desc_write with
whatever parse_value left in the cells. -/
def desc_set_value (desc : Descriptor) (iter : DBusValue)
    (garbageValue : Option (List Byte)) (garbageLen : Nat) :
    PropSetResult × Descriptor × List Effect :=
  let r := parse_value iter garbageValue garbageLen
  if r.1 ≠ 0 then
    (PropSetResult.errorResult "error.InvalidArguments", desc, [])
  else
    let w := desc_write desc r.2.1 r.2.2
    (PropSetResult.successResult, w.1, w.2)

/-- chr_write_value from hrp.c (the WriteValue method handler).  The
message iterator is initialized on the first argument and is never
advanced, so both parse_value and parse_options inspect that same first
argument; on a successfully parsed byte array, parse_options sees an
ARRAY whose elements are not dict entries and succeeds vacuously. -/
def chr_write_value (chr : Characteristic) (firstArg : DBusValue)
    (garbageValue : Option (List Byte)) (garbageLen : Nat)
    (garbageDevice : Option String) :
    Reply × Characteristic × List Effect :=
  let r := parse_value firstArg garbageValue garbageLen
  if r.1 ≠ 0 then (Reply.errorReply DBUS_ERROR_INVALID_ARGS, chr, [])
  else
    let o := parse_options firstArg garbageDevice
    if o.1 ≠ 0 then (Reply.errorReply DBUS_ERROR_INVALID_ARGS, chr, [])
    else
      let w := chr_write chr r.2.1 r.2.2
      (Reply.methodReturn, w.1, w.2)

/-- desc_write_value from hrp.c (the descriptor WriteValue handler); same
shape as chr_write_value, ending in desc_write. -/
def desc_write_value (desc : Descriptor) (firstArg : DBusValue)
    (garbageValue : Option (List Byte)) (garbageLen : Nat)
    (garbageDevice : Option String) :
    Reply × Descriptor × List Effect :=
  let r := parse_value firstArg garbageValue garbageLen
  if r.1 ≠ 0 then (Reply.errorReply DBUS_ERROR_INVALID_ARGS, desc, [])
  else
    let o := parse_options firstArg garbageDevice
    if o.1 ≠ 0 then (Reply.errorReply DBUS_ERROR_INVALID_ARGS, desc, [])
    else
      let w := desc_write desc r.2.1 r.2.2
      (Reply.methodReturn, w.1, w.2)

/-- send_notification from hrp.c: writes the fixed three bytes
0x33 0x34 0x35 into the characteristic through chr_write. -/
def send_notification (chr : Characteristic) : Characteristic × List Effect :=
  chr_write chr (some [0x33, 0x34, 0x35]) 3

/-- chr_start_notify from hrp.c: if allocating the method-return message
fails it returns a NotSupported error; otherwise it calls
send_notification once and returns the method-return message.  It never
inspects the characteristic's flags. -/
def chr_start_notify (chr : Characteristic) (allocOk : Bool) :
    Reply × Characteristic × List Effect :=
  if allocOk = false then
    (Reply.errorReply DBUS_ERROR_NOT_SUPPORTED, chr, [])
  else
    let s := send_notification chr
    (Reply.methodReturn, s.1, s.2)

/-- chr_stop_notify from hrp.c: unconditionally returns a NotSupported
error and leaves the characteristic untouched. -/
def chr_stop_notify (chr : Characteristic) : Reply × Characteristic :=
  (Reply.errorReply DBUS_ERROR_NOT_SUPPORTED, chr)

/-- one exposed D-Bus object: the pair of object path and interface name
registered through g_dbus_register_interface. -/
structure RegEntry where
  path : String
  iface : String
deriving DecidableEq, Repr

/-- state of the registration layer: the exposed objects plus the two
static int counters of hrp.c (id in register_service, and the single id
shared by characteristic and descriptor paths in register_characteristic),
both starting at 1. -/
structure GattState where
  entries : List RegEntry
  serviceId : Nat
  chrDescId : Nat
deriving DecidableEq, Repr

/-- g_dbus_unregister_interface: removes the object with the given path
and interface from the exposed set. -/
def unregister_interface (entries : List RegEntry) (path iface : String) :
    List RegEntry :=
  entries.filter fun e => decide (¬ (e.path = path ∧ e.iface = iface))

/-- register_characteristic from hrp.c, with the outcomes of the two
external g_dbus_register_interface calls supplied as chrRegOk/descRegOk.
The characteristic path consumes the shared counter; on interface-
registration failure the characteristic is destroyed and FALSE returned.
With a descriptor UUID present, the descriptor path consumes the next
value of the same shared counter; if its interface registration fails, the
characteristic interface just registered is unregistered again and the
call returns FALSE. -/
def register_characteristic (st : GattState) (chrRegOk descRegOk : Bool)
    (chr_uuid : String) (value : Option (List Byte)) (vlen : Nat)
    (props : List String) (desc_uuid : Option String)
    (desc_props : List String) (service_path : String) : Bool × GattState :=
  let chrPath := service_path ++ "/characteristic" ++ toString st.chrDescId
  let st1 : GattState := { st with chrDescId := st.chrDescId + 1 }
  if chrRegOk = false then (false, st1)
  else
    let st2 : GattState :=
      { st1 with entries := st1.entries ++ [⟨chrPath, GATT_CHR_IFACE⟩] }
    match desc_uuid with
    | none => (true, st2)
    | some _ =>
      let descPath := chrPath ++ "/descriptor" ++ toString st2.chrDescId
      let st3 : GattState := { st2 with chrDescId := st2.chrDescId + 1 }
      if descRegOk = false then
        (false, { st3 with
                    entries := unregister_interface st3.entries chrPath GATT_CHR_IFACE })
      else
        (true, { st3 with
                   entries := st3.entries ++ [⟨descPath, GATT_DESCRIPTOR_IFACE⟩] })

/-- register_service from hrp.c: builds the path from its own static
counter (consumed whether or not the external registration succeeds) and
returns the path on success, NULL on failure. -/
def register_service (st : GattState) (regOk : Bool) (uuid : String) :
    Option String × GattState :=
  let path := "/service" ++ toString st.serviceId
  let st1 : GattState := { st with serviceId := st.serviceId + 1 }
  if regOk = false then (none, st1)
  else (some path,
        { st1 with entries := st1.entries ++ [⟨path, GATT_SERVICE_IFACE⟩] })

/-- initial registration state: both static counters start at 1 and no
object is exposed. -/
def initialGattState : GattState := { entries := [], serviceId := 1, chrDescId := 1 }

/-- number of sink (callback) invocations in an effect list. -/
def countSinkCalls (effs : List Effect) : Nat :=
  (effs.filter fun e =>
    match e with
    | Effect.sinkCall _ _ => true
    | _ => false).length

/-- number of PropertiesChanged emissions in an effect list. -/
def countPropertyChanged (effs : List Effect) : Nat :=
  (effs.filter fun e =>
    match e with
    | Effect.propertyChanged _ _ _ => true
    | _ => false).length

/-- whether a DBusValue is a byte-array-typed element. -/
def DBusValue.isByteArray : DBusValue → Bool
  | .byteArray _ => true
  | _ => false

/-- C1: a transport-level WriteValue of a byte sequence v replaces the
stored value wholesale with a fresh copy, sets the stored length to the
size of v, and an immediately following read returns exactly v. -/
theorem chr_write_value_read_roundtrip (chr : Characteristic) (v : List Byte)
    (gv : Option (List Byte)) (gl : Nat) (gd : Option String) :
    (chr_write_value chr (DBusValue.byteArray v) gv gl gd).1 = Reply.methodReturn ∧
    (chr_write_value chr (DBusValue.byteArray v) gv gl gd).2.1.vlen = v.length ∧
    chr_read (chr_write_value chr (DBusValue.byteArray v) gv gl gd).2.1 = v := by
  rcases v with _ | ⟨b, bs⟩ <;>
    simp [chr_write_value, parse_value, parse_options, DBusValue.argType,
          chr_write, util_memdup, util_malloc, chr_read, EINVAL]

/-- C2: the characteristic Value setter treats a zero (success) return of
parse_value as the error case, so every payload that parses successfully
as a byte array fails with InvalidArguments and is never stored, while
the descriptor Value setter checks the same parse result with the correct
polarity: it stores the parsed bytes on success and errors on failure. -/
theorem chr_set_value_inverted_polarity (chr : Characteristic) (desc : Descriptor)
    (bs : List Byte) (s : String) (gv gv2 gv3 : Option (List Byte))
    (gl gl2 gl3 : Nat) :
    chr_set_value chr (DBusValue.byteArray bs) gv gl =
      (PropSetResult.errorResult "ERROR_INTERFACE.InvalidArguments", chr, []) ∧
    (desc_set_value desc (DBusValue.byteArray bs) gv2 gl2).1 =
      PropSetResult.successResult ∧
    (desc_set_value desc (DBusValue.byteArray bs) gv2 gl2).2.1.vlen = bs.length ∧
    desc_read (desc_set_value desc (DBusValue.byteArray bs) gv2 gl2).2.1 = bs ∧
    desc_set_value desc (DBusValue.basicString s) gv3 gl3 =
      (PropSetResult.errorResult "error.InvalidArguments", desc, []) := by
  rcases bs with _ | ⟨b, l⟩ <;>
    simp [chr_set_value, desc_set_value, parse_value, DBusValue.argType,
          chr_write, desc_write, util_memdup, util_malloc, desc_read, EINVAL]

/-- C5: StopNotify unconditionally fails with NotSupported, for every
characteristic and hence every subscription state, leaving the
characteristic unchanged. -/
theorem chr_stop_notify_always_not_supported (chr : Characteristic) :
    chr_stop_notify chr = (Reply.errorReply DBUS_ERROR_NOT_SUPPORTED, chr) := rfl

/-- C6: each of the two value write paths (characteristic and descriptor)
invokes the external sink exactly once, with the freshly stored value
bytes and the new length, and emits exactly one PropertiesChanged for the
written attribute's own path and Value property; neither path can skip
either effect. -/
theorem write_invokes_sink_once_and_emits (chr : Characteristic)
    (desc : Descriptor) (value : Option (List Byte)) (len : Nat) :
    (chr_write chr value len).2 =
      [Effect.sinkCall (util_memdup value len) len,
       Effect.propertyChanged chr.path GATT_CHR_IFACE "Value"] ∧
    (desc_write desc value len).2 =
      [Effect.sinkCall (util_memdup value len) len,
       Effect.propertyChanged desc.path GATT_DESCRIPTOR_IFACE "Value"] ∧
    countSinkCalls (chr_write chr value len).2 = 1 ∧
    countPropertyChanged (chr_write chr value len).2 = 1 ∧
    countSinkCalls (desc_write desc value len).2 = 1 ∧
    countPropertyChanged (desc_write desc value len).2 = 1 ∧
    (chr_write chr value len).1.value = util_memdup value len ∧
    (chr_write chr value len).1.vlen = len ∧
    (desc_write desc value len).1.value = util_memdup value len ∧
    (desc_write desc value len).1.vlen = len := by
  refine ⟨rfl, rfl, rfl, rfl, rfl, rfl, rfl, rfl, rfl, rfl⟩

/-- C9: a zero-length write through either transport write path succeeds,
sets the stored length to 0, and a subsequent read returns a zero-length
buffer. -/
theorem zero_length_write_roundtrip (chr : Characteristic) (desc : Descriptor)
    (gv gv2 : Option (List Byte)) (gl gl2 : Nat) (gd gd2 : Option String) :
    (chr_write_value chr (DBusValue.byteArray []) gv gl gd).1 = Reply.methodReturn ∧
    (chr_write_value chr (DBusValue.byteArray []) gv gl gd).2.1.vlen = 0 ∧
    chr_read (chr_write_value chr (DBusValue.byteArray []) gv gl gd).2.1 = [] ∧
    (desc_write_value desc (DBusValue.byteArray []) gv2 gl2 gd2).1 = Reply.methodReturn ∧
    (desc_write_value desc (DBusValue.byteArray []) gv2 gl2 gd2).2.1.vlen = 0 ∧
    desc_read (desc_write_value desc (DBusValue.byteArray []) gv2 gl2 gd2).2.1 = [] := by
  simp [chr_write_value, desc_write_value, parse_value, parse_options,
        DBusValue.argType, chr_write, desc_write, util_memdup, chr_read,
        desc_read, EINVAL]

/-- C10: util_memdup returns NULL exactly when its source is NULL or its
size is zero; for a non-NULL source and a nonzero size it returns a copy
of the first size bytes and never NULL (util_malloc aborts rather than
return NULL for a nonzero size); consequently after a zero-length write
the stored value pointer is NULL while the stored length is 0. -/
theorem util_memdup_null_iff (src : Option (List Byte)) (size : Nat) :
    (util_memdup src size = none ↔ (src = none ∨ size = 0)) ∧
    (size ≠ 0 → (util_malloc size).isSome) ∧
    (∀ bs : List Byte, size ≠ 0 → util_memdup (some bs) size = some (bs.take size)) ∧
    (∀ chr : Characteristic,
      (chr_write chr src 0).1.value = none ∧ (chr_write chr src 0).1.vlen = 0) := by
  refine ⟨?_, ?_, ?_, ?_⟩
  · cases src with
    | none => simp [util_memdup]
    | some l =>
      cases size with
      | zero => simp [util_memdup]
      | succ n => simp [util_memdup, util_malloc]
  · intro h
    simp [util_malloc, h]
  · intro bs h
    simp [util_memdup, util_malloc, h]
  · intro chr
    constructor <;> simp [chr_write, util_memdup]

/-- C10 witness: util_memdup at source bytes 7 8 9 and size 3 is a copy,
and util_malloc at size 3 is a real buffer. -/
theorem util_memdup_null_iff_witness :
    (util_malloc 3).isSome ∧
    util_memdup (some [7, 8, 9]) 3 = some (([7, 8, 9] : List Byte).take 3) :=
  ⟨(util_memdup_null_iff (some [7, 8, 9]) 3).2.1 (by decide),
   (util_memdup_null_iff (some [7, 8, 9]) 3).2.2.1 [7, 8, 9] (by decide)⟩

/-- concrete characteristic whose flags lack notify, with the values the
program registers for the body-sensor-location characteristic. -/
def sampleReadOnlyChr : Characteristic :=
  { service := "/service1"
    uuid := "00002a38-0000-1000-8000-00805f9b34fb"
    path := "/service1/characteristic3"
    value := some [0]
    vlen := 1
    props := ["read"] }

/-- C3 counterexample: this characteristic's flags do not include notify,
yet StartNotify (with the reply allocation succeeding) returns a
method-return rather than the claimed NotSupported error. -/
theorem chr_start_notify_no_flag_check_counterexample :
    "notify" ∉ sampleReadOnlyChr.props ∧
    (chr_start_notify sampleReadOnlyChr true).1 = Reply.methodReturn ∧
    (chr_start_notify sampleReadOnlyChr true).1 ≠
      Reply.errorReply DBUS_ERROR_NOT_SUPPORTED := by
  refine ⟨by decide, rfl, by decide⟩

/-- C3 amended: chr_start_notify never inspects the notify flag: for
every characteristic, when allocating the reply succeeds, StartNotify
returns a method-return and performs exactly one notification delivery (a
write of the fixed bytes 0x33 0x34 0x35, with one sink call and one
PropertiesChanged emission) before returning; it returns NotSupported
precisely when the reply allocation fails. -/
theorem chr_start_notify_amended (chr : Characteristic) :
    (chr_start_notify chr true).1 = Reply.methodReturn ∧
    (chr_start_notify chr true).2.2 =
      [Effect.sinkCall (some [0x33, 0x34, 0x35]) 3,
       Effect.propertyChanged chr.path GATT_CHR_IFACE "Value"] ∧
    countPropertyChanged (chr_start_notify chr true).2.2 = 1 ∧
    countSinkCalls (chr_start_notify chr true).2.2 = 1 ∧
    chr_read (chr_start_notify chr true).2.1 = [0x33, 0x34, 0x35] ∧
    (chr_start_notify chr false).1 = Reply.errorReply DBUS_ERROR_NOT_SUPPORTED := by
  refine ⟨rfl, ?_, rfl, rfl, ?_, rfl⟩ <;>
    simp [chr_start_notify, send_notification, chr_write, util_memdup,
          util_malloc, chr_read, countPropertyChanged, countSinkCalls]

/-- removing a freshly appended exposed object restores the original
exposed set when that object was not present before. -/
theorem unregister_append_self (entries : List RegEntry) (path iface : String)
    (h : RegEntry.mk path iface ∉ entries) :
    unregister_interface (entries ++ [⟨path, iface⟩]) path iface = entries := by
  unfold unregister_interface
  rw [List.filter_append]
  have h2 : (List.filter (fun e => decide (¬ (e.path = path ∧ e.iface = iface)))
      [(⟨path, iface⟩ : RegEntry)]) = [] := by simp
  rw [h2, List.append_nil]
  apply List.filter_eq_self.mpr
  intro e he
  simp only [decide_eq_true_eq]
  intro hc
  apply h
  have he2 : e = RegEntry.mk path iface := by
    cases e
    simp_all
  rw [← he2]
  exact he

/-- C4: registering a characteristic together with a descriptor is
all-or-nothing: when the descriptor's interface registration fails, the
characteristic interface just registered is unregistered again before the
call returns FALSE, so (provided the fresh characteristic path was not
already exposed) the exposed objects afterwards are exactly those from
before the call. -/
theorem register_characteristic_rollback (st : GattState)
    (uuid du spath : String) (value : Option (List Byte)) (vlen : Nat)
    (props dprops : List String)
    (h : RegEntry.mk (spath ++ "/characteristic" ++ toString st.chrDescId)
           GATT_CHR_IFACE ∉ st.entries) :
    (register_characteristic st true false uuid value vlen props
        (some du) dprops spath).1 = false ∧
    (register_characteristic st true false uuid value vlen props
        (some du) dprops spath).2.entries = st.entries := by
  refine ⟨rfl, ?_⟩
  show unregister_interface
    (st.entries ++ [⟨spath ++ "/characteristic" ++ toString st.chrDescId,
                     GATT_CHR_IFACE⟩])
    (spath ++ "/characteristic" ++ toString st.chrDescId) GATT_CHR_IFACE
    = st.entries
  exact unregister_append_self st.entries _ GATT_CHR_IFACE h

/-- C4 witness: from the initial state, a registration whose descriptor
interface registration fails returns FALSE and leaves no object exposed. -/
theorem register_characteristic_rollback_witness :
    (RegEntry.mk ("/svc" ++ "/characteristic" ++ toString (1 : Nat))
       GATT_CHR_IFACE ∉ ([] : List RegEntry)) ∧
    (register_characteristic initialGattState true false "u" none 0 []
        (some "d") [] "/svc").1 = false ∧
    (register_characteristic initialGattState true false "u" none 0 []
        (some "d") [] "/svc").2.entries = ([] : List RegEntry) := by
  have h := register_characteristic_rollback initialGattState "u" "d" "/svc"
    none 0 [] [] (by simp [initialGattState])
  exact ⟨by simp, h.1, h.2⟩

/-- C7 counterexample: an array of dict entries is not a byte-array-typed
element, yet parse_value returns 0 (success) on it instead of failing with
-EINVAL. -/
theorem parse_value_nonbyte_array_counterexample :
    (DBusValue.dictArray []).isByteArray = false ∧
    (parse_value (DBusValue.dictArray []) none 0).1 = 0 ∧
    (parse_value (DBusValue.dictArray []) none 0).1 ≠ -EINVAL := by
  refine ⟨rfl, rfl, by decide⟩

/-- C7 amended: parse_value fails with -EINVAL exactly when the payload's
outer D-Bus type is not ARRAY; on a byte-array payload it succeeds,
returning the bytes and their length; on any other ARRAY payload (such as
an array of dict entries) it also returns 0 but leaves the output cells
untouched.  The decoding consults no capability flags (it takes none). -/
theorem parse_value_amended (iter : DBusValue) (v0 : Option (List Byte))
    (l0 : Nat) :
    ((parse_value iter v0 l0).1 = 0 ↔ iter.argType = DBusArgType.array) ∧
    (∀ bs : List Byte,
      parse_value (DBusValue.byteArray bs) v0 l0 = (0, some bs, bs.length)) ∧
    (iter.argType ≠ DBusArgType.array →
      parse_value iter v0 l0 = (-EINVAL, v0, l0)) ∧
    (iter.isByteArray = false → iter.argType = DBusArgType.array →
      parse_value iter v0 l0 = (0, v0, l0)) := by
  cases iter <;>
    simp [parse_value, DBusValue.argType, DBusValue.isByteArray, EINVAL]

/-- C7 amended witness: a string payload is not ARRAY-typed and
parse_value rejects it with -EINVAL, leaving the output cells untouched. -/
theorem parse_value_amended_witness :
    (DBusValue.basicString "x").argType ≠ DBusArgType.array ∧
    parse_value (DBusValue.basicString "x") none 0 = (-EINVAL, none, 0) :=
  ⟨by decide,
   (parse_value_amended (DBusValue.basicString "x") none 0).2.2.1 (by decide)⟩

/-- registration scenario: one service, then a characteristic with a
descriptor, then a plain characteristic, every external interface
registration succeeding. -/
def twoChrScenario : GattState :=
  (register_characteristic
    (register_characteristic
      (register_service initialGattState true
        "0000180d-0000-1000-8000-00805f9b34fb").2
      true true "u1" none 0 [] (some "d1") [] "/service1").2
    true true "u2" none 0 [] none [] "/service1").2

/-- C8 counterexample: starting from the initial state, registering a
characteristic with a descriptor and then a second characteristic yields
the paths characteristic1, descriptor2 and characteristic3: the numbers of
the two successive characteristics are not consecutive and do depend on
the intervening descriptor, refuting per-category counters. -/
theorem path_counters_shared_counterexample :
    twoChrScenario.entries.map RegEntry.path =
      ["/service1", "/service1/characteristic1",
       "/service1/characteristic1/descriptor2",
       "/service1/characteristic3"] ∧
    "/service1/characteristic2" ∉ twoChrScenario.entries.map RegEntry.path := by
  refine ⟨by decide, by decide⟩

/-- C8 amended: paths follow the layout /service<N>,
/service<N>/characteristic<M> and
/service<N>/characteristic<M>/descriptor<K>; N comes from its own
per-process monotonically increasing counter, while M and K are drawn
from one shared per-process counter that increments on every
characteristic or descriptor path allocation (even when the external
registration fails) and is never reused, so a characteristic registered
after a characteristic-with-descriptor receives a number two greater than
its predecessor, not a consecutive one. -/
theorem path_counters_amended (st : GattState) (uuid du spath : String)
    (value : Option (List Byte)) (vlen : Nat) (props dprops : List String)
    (ok : Bool) :
    (register_service st true uuid).1 =
      some ("/service" ++ toString st.serviceId) ∧
    (register_service st ok uuid).2.serviceId = st.serviceId + 1 ∧
    (register_service st ok uuid).2.chrDescId = st.chrDescId ∧
    (register_characteristic st true true uuid value vlen props (some du)
        dprops spath).2.entries =
      st.entries ++
        [⟨spath ++ "/characteristic" ++ toString st.chrDescId, GATT_CHR_IFACE⟩,
         ⟨spath ++ "/characteristic" ++ toString st.chrDescId ++ "/descriptor" ++
            toString (st.chrDescId + 1), GATT_DESCRIPTOR_IFACE⟩] ∧
    (register_characteristic st true true uuid value vlen props (some du)
        dprops spath).2.chrDescId = st.chrDescId + 2 ∧
    (register_characteristic st true true uuid value vlen props none
        dprops spath).2.entries =
      st.entries ++
        [⟨spath ++ "/characteristic" ++ toString st.chrDescId, GATT_CHR_IFACE⟩] ∧
    (register_characteristic st true true uuid value vlen props none
        dprops spath).2.chrDescId = st.chrDescId + 1 ∧
    (register_characteristic st ok false uuid value vlen props none
        dprops spath).2.chrDescId = st.chrDescId + 1 ∧
    (register_characteristic st true false uuid value vlen props (some du)
        dprops spath).2.chrDescId = st.chrDescId + 2 := by
  cases ok <;>
    simp [register_service, register_characteristic, unregister_interface]

end HRP
